import Mathlib

/-!
Shallow embedding of the SAPI request routing, validation and dispatch
pipeline of `src/sapi/sapi.cpp` (Core-Smart repository), together with
theorems settling the specification claims about it.

The JSON value type (UniValue) and its parser are external collaborators of
the excerpted code; they are modelled by a small tagged-union value type and
by an opaque parse function passed as a parameter.  The HTTP engine
(libevent) is likewise external: a request is modelled by the data the
callback `sapi_request_cb` actually inspects (warm-up state, peer validity,
method, URI), and a response by the status, the headers and the body that
the code writes.
-/

set_option autoImplicit false

namespace SAPI

/-! ### JSON values (UniValue, external collaborator) -/

/-- The six kinds of a UniValue JSON value (`UniValue::VType`). -/
inductive UKind
  | VNULL
  | VOBJ
  | VARR
  | VSTR
  | VNUM
  | VBOOL
deriving DecidableEq, Repr

/-- A JSON value, modelling the external UniValue tagged union. -/
inductive UniV
  | null
  | bool (b : Bool)
  | num (s : String)
  | str (s : String)
  | arr (xs : List UniV)
  | obj (kvs : List (String × UniV))

/-- Model of `UniValue::type()`. -/
def kindOf : UniV → UKind
  | .null => .VNULL
  | .bool _ => .VBOOL
  | .num _ => .VNUM
  | .str _ => .VSTR
  | .arr _ => .VARR
  | .obj _ => .VOBJ

/-- Model of `UniValue::exists(key)`: true only for objects holding the key. -/
def uexists (v : UniV) (key : String) : Bool :=
  match v with
  | .obj kvs => (kvs.find? (fun kv => kv.1 = key)).isSome
  | _ => false

/-- Model of `UniValue::operator[](key)`: the first value stored under `key`,
`NullUniValue` for non-objects and absent keys. -/
def uget (v : UniV) (key : String) : UniV :=
  match v with
  | .obj kvs =>
    match kvs.find? (fun kv => kv.1 = key) with
    | some kv => kv.2
    | none => .null
  | _ => .null

/-! ### Result codes (`SAPI::Codes`, `SAPI::Result`) -/

/-- The `SAPI::Codes` outcome enumeration (Valid, Undefined,
ParameterMissing, InvalidType, plus handler-specific extensions modelled by
`other`). -/
inductive SCode
  | Valid
  | Undefined
  | ParameterMissing
  | InvalidType
  | other (n : Nat)
deriving DecidableEq, Repr

/-- Model of `SAPI::Result`: a code together with a human-readable message. -/
structure SResult where
  code : SCode
  message : String
deriving DecidableEq, Repr

/-! ### HTTP requests and responses (engine collaborator) -/

/-- Model of `HTTPRequest::RequestMethod`. -/
inductive RequestMethod
  | UNKNOWN
  | GET
  | POST
  | HEAD
  | PUT
  | OPTIONS
deriving DecidableEq, Repr

/-- Modelled from the spec: `RequestMethodString` lives in the HTTP engine
wrapper (httpserver.cpp), which is not part of the excerpt; it names each
verb by its upper-case HTTP name. -/
def RequestMethodString : RequestMethod → String
  | .UNKNOWN => "unknown"
  | .GET => "GET"
  | .POST => "POST"
  | .HEAD => "HEAD"
  | .PUT => "PUT"
  | .OPTIONS => "OPTIONS"

/-- The body a response was written with: either a plain string handed to
`HTTPRequest::WriteReply`, or the serialized JSON array of `SAPI::Result`
objects that `SAPI::Error` writes (UniValue serialization is external, so
the error array is kept structured). -/
inductive RBody
  | str (s : String)
  | json (errs : List SResult)
deriving DecidableEq, Repr

/-- A written HTTP response: status code, headers in write order, body. -/
structure Response where
  status : Nat
  headers : List (String × String)
  body : RBody
deriving DecidableEq, Repr

/-- The client identification strings used by `SAPI::AddDefaultHeaders`
(`CLIENT_NAME` and `strClientVersion` are external constants). -/
structure ClientInfo where
  clientName : String
  clientVersion : String

/-- The value of `SAPI::versionString` for SAPI_VERSION_MAJOR = 1, SAPI_VERSION_MINOR = 0. -/
def versionString : String := "1.0"

/-- The value of `SAPI::versionSubPath` for SAPI_VERSION_MAJOR = 1. -/
def versionSubPath : String := "/v1"

/-- Model of `SAPI::AddDefaultHeaders`: the four headers every SAPI-formatted reply
carries. -/
def defaultHeaders (ci : ClientInfo) : List (String × String) :=
  [("User-Agent", ci.clientName),
   ("Client-Version", ci.clientVersion),
   ("SAPI-Version", versionString),
   ("Access-Control-Allow-Origin", "*")]

/-- Model of `SAPI::Error(req, status, errors)`: default headers, JSON content type,
and the serialized array of results as body. -/
def sapiErrorResults (ci : ClientInfo) (status : Nat) (errors : List SResult) : Response :=
  { status := status
    headers := defaultHeaders ci ++ [("Content-Type", "application/json")]
    body := .json errors }

/-- Model of `SAPI::Error(req, status, message)`: a single `Undefined` result. -/
def sapiErrorMsg (ci : ClientInfo) (status : Nat) (message : String) : Response :=
  sapiErrorResults ci status [⟨SCode.Undefined, message⟩]

/-! ### Endpoints and groups -/

/-- A body-parameter validator (`SAPI::Validation::Base`): the JSON kind it
declares plus its semantic `Validate(key, value)` check. -/
structure Validator where
  type : UKind
  validate : String → UniV → SResult

/-- Model of `SAPI::BodyParameter`. -/
structure BodyParameter where
  key : String
  optional : Bool
  validator : Validator

/-- Model of `SAPI::Endpoint`: path template, method, expected body root kind and the
declared body parameters.  The handler is an excluded collaborator; the
executor below returns the arguments it would be invoked with. -/
structure Endpoint where
  path : String
  method : RequestMethod
  bodyRoot : UKind
  vecBodyParameter : List BodyParameter

/-- Model of `SAPI::EndpointGroup`: a path-group name plus its endpoints.  The C++
member is named `prefix`, which Lean reserves, hence `groupPrefix`. -/
structure EndpointGroup where
  groupPrefix : String
  endpoints : List Endpoint

/-! ### Path splitting and template matching (`sapi_request_cb` lines 153-219) -/

/-- Split a character list on `'/'`, `boost::split` style: the empty input
yields one empty segment, consecutive delimiters yield empty segments. -/
def splitSegs : List Char → List (List Char)
  | [] => [[]]
  | c :: cs =>
    let rest := splitSegs cs
    if c = '/' then [] :: rest
    else (c :: rest.headD []) :: rest.tail

/-- Model of `SplitPath`: `boost::split(parts, str, boost::is_any_of("/"))`. -/
def splitPath (s : String) : List String :=
  (splitSegs s.data).map (fun l => ⟨l⟩)

/-- Model of `std::string::front()` as exercised by the matcher; on the empty string
the C++ call reads the terminator, modelled by `'\x00'`. -/
def segFront (s : List Char) : Char := s.headD '\x00'

/-- Model of `std::string::back()` under the same convention. -/
def segBack (s : List Char) : Char := s.getLastD '\x00'

/-- The placeholder test of the matcher:
`partStr.front() == '\x7b' && partStr.back() == '\x7d'`. -/
def isParam (s : String) : Bool :=
  segFront s.data = '\x7b' && segBack s.data = '\x7d'

/-- Model of `std::string(partStr.begin() + 1, partStr.end() - 1)`: the placeholder
name with the surrounding braces stripped. -/
def stripBraces (s : String) : String :=
  ⟨(s.data.drop 1).dropLast⟩

/-- Model of `std::map<std::string, std::string>::insert`: a no-op when the key is
already present (the first inserted value is kept). -/
def mapInsert (m : List (String × String)) (k v : String) : List (String × String) :=
  if m.any (fun p => p.1 = k) then m else m ++ [(k, v)]

/-- The per-segment loop of the matcher (lines 190-211): walk the incoming
segments; the template segment for a position past the template's end is the
empty string; a placeholder records the segment, a literal must be equal. -/
def matchSegs : List String → List String → List (String × String) → Option (List (String × String))
  | [], _, acc => some acc
  | u :: us, ts, acc =>
    let t := ts.headD ""
    if isParam t then matchSegs us ts.tail (mapInsert acc (stripBraces t) u)
    else if u = t then matchSegs us ts.tail acc
    else none

/-- Matching one endpoint's split template against the post-group URI
segments (lines 175-216): the zero-segment branch for the group root, and
otherwise the exact-length or trailing-empty-segment length guard followed
by the per-segment loop. -/
def matchEndpoint (partsEndpoint partsURI : List String) : Option (List (String × String)) :=
  if partsEndpoint.isEmpty then
    if partsURI.isEmpty || (partsURI.length = 1 && partsURI.getLastD "" = "") then some []
    else none
  else if (partsURI.length = partsEndpoint.length + 1 ∧ partsURI.getLastD "" = "")
          ∨ partsURI.length = partsEndpoint.length then
    matchSegs partsURI partsEndpoint []
  else none

/-- The match-collection loop (lines 163-219): endpoint matching runs only
when at least one post-group segment exists, over every endpoint of every
group whose name equals the first segment. -/
def collectMatches (groups : List EndpointGroup) (pathGroup : String)
    (partsURI : List String) : List (Endpoint × List (String × String)) :=
  if partsURI.isEmpty then []
  else groups.flatMap (fun g =>
    if g.groupPrefix = pathGroup then
      g.endpoints.filterMap (fun e =>
        (matchEndpoint (splitPath e.path) partsURI).map (fun m => (e, m)))
    else [])

/-- Model of `std::string::substr(0, n)`. -/
def substrTo (s : String) (n : Nat) : String := ⟨s.data.take n⟩

/-- Model of `std::string::substr(n)`. -/
def substrFrom (s : String) (n : Nat) : String := ⟨s.data.drop n⟩

/-- The pattern-match set the dispatcher computes for a URI: empty unless
the URI passes the version-prefix and endpoint-present checks, otherwise
the collected matchList for the first remaining segment. -/
def matchSet (groups : List EndpointGroup) (uri : String) :
    List (Endpoint × List (String × String)) :=
  if substrTo uri versionSubPath.length ≠ versionSubPath then []
  else
    let rest := substrFrom uri versionSubPath.length
    if rest.data.isEmpty || segFront rest.data ≠ '/' then []
    else
      let parts := splitPath (substrFrom rest 1)
      collectMatches groups (parts.headD "") parts.tail

/-! ### Work queue (`WorkQueue<HTTPClosure>`) -/

/-- Modelled from the spec: the `WorkQueue` template class is declared in
httpserver.h, which is not part of the excerpt; §4.3 of the spec defines
`Enqueue` as the atomic check `running && size < maxDepth`, appending and
returning true on success and returning false leaving the queue unchanged
otherwise.  The model is sequential; atomicity is the step granularity. -/
structure WorkQueue (α : Type) where
  running : Bool
  maxDepth : Nat
  queue : List α

/-- Modelled from the spec: `WorkQueue::Enqueue` (§4.3). -/
def WorkQueue.Enqueue {α : Type} (q : WorkQueue α) (item : α) : Bool × WorkQueue α :=
  if q.running ∧ q.queue.length < q.maxDepth then
    (true, { q with queue := q.queue ++ [item] })
  else (false, q)

/-- A `SAPIWorkItem` as far as the dispatcher determines it: the matched
endpoint and the extracted path parameters (the owned request object and the
execution entry point are external). -/
structure WorkItem where
  endpoint : Endpoint
  params : List (String × String)

/-! ### The request callback (`sapi_request_cb`, lines 114-256) -/

/-- The data of an inbound request that `sapi_request_cb` inspects: the
warm-up state reported by `RPCIsInWarmup` (some status message when warming
up), the peer-address validity consulted by `ClientAllowed`, the parsed
method and the URI. -/
structure RequestInput where
  warmup : Option String
  peerValid : Bool
  method : RequestMethod
  uri : String

/-- What the callback did with a request: wrote a response inline, or
constructed a work item that the queue accepted. -/
inductive DispatchOutcome
  | respond (r : Response)
  | enqueued (e : Endpoint) (params : List (String × String))

/-- The response of an outcome, if it wrote one. -/
def outcomeResponse : DispatchOutcome → Option Response
  | .respond r => some r
  | .enqueued _ _ => none

/-- The `Access-Control-Allow-Methods` value built for OPTIONS requests
(lines 223-227): `"OPTIONS"` followed by `", " + method` per match. -/
def strMethodsOf (matchList : List (Endpoint × List (String × String))) : String :=
  matchList.foldl (fun acc m => acc ++ ", " ++ RequestMethodString m.1.method)
    (RequestMethodString RequestMethod.OPTIONS)

/-- Model of `sapi_request_cb`: warm-up check, allow check, method check, version
prefix check, endpoint-present check, match collection, OPTIONS
short-circuit, method dispatch with enqueue, unknown-endpoint fallback.
Returns the outcome together with the (possibly extended) work queue. -/
def sapi_request_cb (ci : ClientInfo) (groups : List EndpointGroup)
    (q : WorkQueue WorkItem) (req : RequestInput) : DispatchOutcome × WorkQueue WorkItem :=
  match req.warmup with
  | some statusmessage =>
    (.respond (sapiErrorMsg ci 503 ("Service temporarily unavailable: " ++ statusmessage)), q)
  | none =>
    if ¬ req.peerValid then (.respond (sapiErrorMsg ci 403 "Access forbidden"), q)
    else if req.method = .UNKNOWN then (.respond (sapiErrorMsg ci 405 "Invalid method"), q)
    else if substrTo req.uri versionSubPath.length ≠ versionSubPath then
      (.respond (sapiErrorMsg ci 404 "Invalid api version. Use: <host>/v1/<endpoint>"), q)
    else
      let strURI := substrFrom req.uri versionSubPath.length
      if strURI.data.isEmpty || segFront strURI.data ≠ '/' then
        (.respond (sapiErrorMsg ci 404 "Endpoint missing. Use: <host>/v1/<endpoint>"), q)
      else
        let parts := splitPath (substrFrom strURI 1)
        let matchList := collectMatches groups (parts.headD "") parts.tail
        if ¬ matchList.isEmpty ∧ req.method = .OPTIONS then
          (.respond { status := 200
                      headers := defaultHeaders ci ++
                        [("Access-Control-Allow-Methods", strMethodsOf matchList),
                         ("Access-Control-Allow-Headers", "Content-Type")]
                      body := .str "" }, q)
        else
          match matchList.find? (fun m => req.method = m.1.method) with
          | some mtch =>
            let step := q.Enqueue ⟨mtch.1, mtch.2⟩
            if step.1 then (.enqueued mtch.1 mtch.2, step.2)
            else
              (.respond { status := 500, headers := [], body := .str "Work queue depth exceeded" }, q)
          | none =>
            (.respond (sapiErrorMsg ci 404
              ("Invalid endpoint: " ++ req.uri ++ " with method: " ++ RequestMethodString req.method)), q)

/-! ### Body validation (`ParameterBaseCheck`, `SAPIValidateBody`,
`SAPIExecuteEndpoint`, lines 444-611) -/

/-- The `InvalidType` message of `ParameterBaseCheck`, naming the expected
kind (the switch covers every `UniValue::VType`, so the default arm is
unreachable). -/
def invalidTypeMessage (key : String) (t : UKind) : String :=
  match t with
  | .VARR => "Invalid type for key: " ++ key ++ " -- expected JSON-Array"
  | .VBOOL => "Invalid type for key: " ++ key ++ " -- expected Bool"
  | .VNULL => "Invalid type for key: " ++ key ++ " -- expected Null"
  | .VNUM => "Invalid type for key: " ++ key ++ " -- expected Number"
  | .VOBJ => "Invalid type for key: " ++ key ++ " -- expected Object"
  | .VSTR => "Invalid type for key: " ++ key ++ " -- expected String"

/-- Model of `ParameterBaseCheck` (lines 444-492): `ParameterMissing` for an absent
non-optional key, `InvalidType` for a present key whose kind differs from
the validator's declared kind, `Valid` otherwise. -/
def ParameterBaseCheck (obj : UniV) (param : BodyParameter) : SResult :=
  if ¬ (uexists obj param.key) ∧ ¬ param.optional then
    ⟨SCode.ParameterMissing, "Parameter missing: " ++ param.key⟩
  else if uexists obj param.key then
    if kindOf (uget obj param.key) ≠ param.validator.type then
      ⟨SCode.InvalidType, invalidTypeMessage param.key param.validator.type⟩
    else ⟨SCode.Valid, ""⟩
  else ⟨SCode.Valid, ""⟩

/-- The accumulation loop of `SAPIValidateBody` (lines 577-595): base check
first, then the semantic validator for present keys that passed it; only
non-`Valid` results are pushed. -/
def validateParams (body : UniV) : List BodyParameter → List SResult → List SResult
  | [], results => results
  | param :: ps, results =>
    let r := ParameterBaseCheck body param
    if r.code ≠ SCode.Valid then validateParams body ps (results ++ [r])
    else if uexists body param.key then
      let r2 := param.validator.validate param.key (uget body param.key)
      if r2.code ≠ SCode.Valid then validateParams body ps (results ++ [r2])
      else validateParams body ps results
    else validateParams body ps results

/-- The outcome of the body-parsing try-block of `SAPIValidateBody` (lines
546-570); the UniValue parser is external.  `errObj` is a thrown UniValue
carrying code and message fields, `errRawObj` one without (answered with its
raw serialization), `exn` a `std::exception` (including the
`"Error parsing JSON:" + body` runtime error raised on a failed read). -/
inductive ParseResult
  | ok (v : UniV)
  | errObj (code : Int) (message : String)
  | errRawObj (serialized : String)
  | exn (what : String)

/-- Model of `SAPIValidateBody` (lines 535-601): skip for endpoints without an
object/array body root, reject empty bodies, surface parse errors, check the
root kind, then accumulate parameter violations; any violation yields a
single BAD_REQUEST response carrying all of them.  Returns the parsed body
value handed to the handler on success. -/
def SAPIValidateBody (ci : ClientInfo) (parse : String → ParseResult)
    (endpoint : Endpoint) (bodyStr : String) : Except Response UniV :=
  if endpoint.bodyRoot ≠ UKind.VARR ∧ endpoint.bodyRoot ≠ UKind.VOBJ then .ok .null
  else if bodyStr.data.isEmpty then
    .error (sapiErrorMsg ci 400 "No body parameter object defined in the body: \x7b...TBD...\x7d")
  else
    match parse bodyStr with
    | .errObj code message =>
      .error (sapiErrorMsg ci 400 (message ++ " (code " ++ toString code ++ ")"))
    | .errRawObj serialized => .error (sapiErrorMsg ci 400 serialized)
    | .exn what => .error (sapiErrorMsg ci 400 ("Error: " ++ what))
    | .ok bodyParameter =>
      if endpoint.bodyRoot = UKind.VOBJ ∧ kindOf bodyParameter ≠ UKind.VOBJ then
        .error (sapiErrorMsg ci 400 "Parameter json is expedted to be a JSON object: \x7b...TBD... \x7d")
      else if endpoint.bodyRoot = UKind.VARR ∧ kindOf bodyParameter ≠ UKind.VARR then
        .error (sapiErrorMsg ci 400 "Parameter json is expedted to be a JSON array: \x7b...TBD... \x7d")
      else
        let results := validateParams bodyParameter endpoint.vecBodyParameter []
        if ¬ results.isEmpty then .error (sapiErrorResults ci 400 results)
        else .ok bodyParameter

/-- Model of `SAPIExecuteEndpoint` (lines 603-611): validate, then invoke the
endpoint's handler with the path parameters and the parsed body.  The
handler is an excluded collaborator, so the model returns the argument pair
it would receive. -/
def SAPIExecuteEndpoint (ci : ClientInfo) (parse : String → ParseResult)
    (endpoint : Endpoint) (mapPathParams : List (String × String)) (bodyStr : String) :
    Except Response (List (String × String) × UniV) :=
  match SAPIValidateBody ci parse endpoint bodyStr with
  | .error r => .error r
  | .ok bodyParameter => .ok (mapPathParams, bodyParameter)

/-! ### Server lifecycle (`StopSAPIServer`, lines 406-441) -/

/-- The static server handles `StopSAPIServer` touches: the work queue
pointer, the event base and the evhttp object, each `some id` when the
pointer is non-null, plus the set of already-deleted objects (delete and
`WaitExit` on a deleted object are invalid). -/
structure ServerState where
  workQueue : Option Nat
  eventBaseSAPI : Option Nat
  eventSAPI : Option Nat
  freed : List Nat
deriving DecidableEq, Repr

/-- The result of running `StopSAPIServer`: the new handle state, or a
touched-freed-object fault. -/
inductive StopResult
  | ok (s : ServerState)
  | useAfterFree
deriving DecidableEq, Repr

/-- The tail of `StopSAPIServer` (lines 414-439): join the event thread,
then free `eventSAPI` and `eventBaseSAPI`, nulling each pointer after its
free. -/
def stopEngine (s : ServerState) : StopResult :=
  let afterHttp : StopResult :=
    match s.eventSAPI with
    | some e =>
      if e ∈ s.freed then .useAfterFree
      else .ok { s with eventSAPI := none, freed := e :: s.freed }
    | none => .ok s
  match afterHttp with
  | .useAfterFree => .useAfterFree
  | .ok s2 =>
    match s2.eventBaseSAPI with
    | some b =>
      if b ∈ s2.freed then .useAfterFree
      else .ok { s2 with eventBaseSAPI := none, freed := b :: s2.freed }
    | none => .ok s2

/-- Model of `StopSAPIServer` (lines 406-441): when `workQueue` is non-null, call
`WaitExit` on it and delete it — without nulling the pointer — then stop the
engine objects. -/
def StopSAPIServer (s : ServerState) : StopResult :=
  match s.workQueue with
  | some w =>
    if w ∈ s.freed then .useAfterFree
    else stopEngine { s with freed := w :: s.freed }
  | none => stopEngine s

/-- The handle state before `InitSAPIServer` ever ran: all pointers null. -/
def initialServerState : ServerState :=
  { workQueue := none, eventBaseSAPI := none, eventSAPI := none, freed := [] }

/-- The handle state after a successful `InitSAPIServer`: the three objects
allocated (ids 0, 1, 2), nothing freed. -/
def afterInitServerState : ServerState :=
  { workQueue := some 0, eventBaseSAPI := some 1, eventSAPI := some 2, freed := [] }

/-! ### Specification-side definitions (for refinement comparisons) -/

/-- The placeholder/value pairs of a template against incoming segments, in
position order, written from the spec's words: a placeholder position
contributes the brace-stripped name and the incoming segment at that
position. -/
def placeholderPairs : List String → List String → List (String × String)
  | t :: ts, u :: us =>
    (if isParam t then [(stripBraces t, u)] else []) ++ placeholderPairs ts us
  | _, _ => []

/-- Collapse a pair list to a map keeping, for each key, the value at its
first occurrence. -/
def dedupKeepFirst (l : List (String × String)) : List (String × String) :=
  l.foldl (fun acc p => mapInsert acc p.1 p.2) []

/-- The violation list described by the claim, written from the spec's
words: per declared parameter in order, a `ParameterMissing` for an absent
non-optional key, an `InvalidType` naming the expected kind for a present
key of the wrong kind, and the semantic validator's result for a present key
of the right kind when it is not `Valid`. -/
def specResults (body : UniV) : List BodyParameter → List SResult
  | [] => []
  | param :: ps =>
    (if ¬ (uexists body param.key) ∧ ¬ param.optional then
      [⟨SCode.ParameterMissing, "Parameter missing: " ++ param.key⟩]
    else if uexists body param.key ∧ kindOf (uget body param.key) ≠ param.validator.type then
      [⟨SCode.InvalidType, invalidTypeMessage param.key param.validator.type⟩]
    else if uexists body param.key ∧
        (param.validator.validate param.key (uget body param.key)).code ≠ SCode.Valid then
      [param.validator.validate param.key (uget body param.key)]
    else []) ++ specResults body ps

/-- Repeated `Enqueue` of a list of items, recording whether every enqueue
succeeded. -/
def enqueueAll {α : Type} (q : WorkQueue α) : List α → Bool × WorkQueue α
  | [] => (true, q)
  | x :: xs =>
    let step := q.Enqueue x
    let rest := enqueueAll step.2 xs
    (step.1 && rest.1, rest.2)

/-! ### Concrete fixtures used by witnesses and counterexamples -/

/-- A concrete client identification. -/
def ci0 : ClientInfo := ⟨"SmartClient", "1.1.1"⟩

/-- A validator of the given kind whose semantic check always passes. -/
def anyValidator (t : UKind) : Validator := ⟨t, fun _ _ => ⟨SCode.Valid, ""⟩⟩

/-- A `GET balance/<address>` endpoint as in the spec's scenario. -/
def balanceEndpoint : Endpoint :=
  { path := "balance/\x7baddress\x7d", method := .GET, bodyRoot := .VNULL, vecBodyParameter := [] }

/-- The group holding `balanceEndpoint` under the name `addr`. -/
def addrGroup : EndpointGroup := ⟨"addr", [balanceEndpoint]⟩

/-- An endpoint whose path template is the empty root marker. -/
def rootEndpoint : Endpoint :=
  { path := "", method := .GET, bodyRoot := .VNULL, vecBodyParameter := [] }

/-- The group holding only the root endpoint under the name `address`. -/
def addressGroup : EndpointGroup := ⟨"address", [rootEndpoint]⟩

/-- An empty running work queue of depth 16 (the default depth). -/
def q0 : WorkQueue WorkItem := ⟨true, 16, []⟩

/-- A running work queue already at its capacity of 1. -/
def qFull : WorkQueue WorkItem := ⟨true, 1, [⟨balanceEndpoint, []⟩]⟩

/-- A POST endpoint declaring an object body with required parameters `a`,
`b` (strings) and `c` (number). -/
def objEndpoint : Endpoint :=
  { path := "", method := .POST, bodyRoot := .VOBJ,
    vecBodyParameter :=
      [⟨"a", false, anyValidator .VSTR⟩,
       ⟨"b", false, anyValidator .VSTR⟩,
       ⟨"c", false, anyValidator .VNUM⟩] }

/-- A body missing `a` and `b` and giving `c` a string instead of a number. -/
def body0 : UniV := .obj [("c", .str "x")]

/-- A parse function that always yields `body0`. -/
def parse0 : String → ParseResult := fun _ => .ok body0

/-! ### Matcher refinement lemmas -/

/-- The per-segment loop agrees with the spec-side description: under the
length guard it succeeds exactly when every template position is a
placeholder or an exact literal match, and then folds the placeholder/value
pairs into the parameter map, first occurrence of a name winning. -/
theorem matchSegs_spec (U : List String) : ∀ (T : List String) (acc : List (String × String)),
    (U.length = T.length ∨ (U.length = T.length + 1 ∧ U.getLastD "" = "")) →
    matchSegs U T acc =
      (if (T.zip U).all (fun p => isParam p.1 || p.1 = p.2) then
        some ((placeholderPairs T U).foldl (fun a p => mapInsert a p.1 p.2) acc)
      else none) := by
  induction U with
  | nil =>
    intro T acc _
    simp [matchSegs, List.zip_nil_right, placeholderPairs]
  | cons u us ih =>
    intro T acc hsize
    cases T with
    | nil =>
      rcases hsize with h | ⟨h, hlast⟩
      · simp at h
      · simp only [List.length_cons, List.length_nil, Nat.zero_add] at h
        have hus : us = [] := List.eq_nil_of_length_eq_zero (by omega)
        subst hus
        have hu : u = "" := by simpa [List.getLastD] using hlast
        subst hu
        have hnp : isParam "" = false := rfl
        simp [matchSegs, hnp, placeholderPairs]
    | cons t ts =>
      have hsize2 : us.length = ts.length ∨ (us.length = ts.length + 1 ∧ us.getLastD "" = "") := by
        rcases hsize with h | ⟨h, hlast⟩
        · left
          simpa using h
        · right
          simp only [List.length_cons] at h
          have hlen : us.length = ts.length + 1 := by omega
          refine ⟨hlen, ?_⟩
          cases us with
          | nil => simp at hlen
          | cons v vs => simpa [List.getLastD_cons] using hlast
      by_cases hp : isParam t
      · have step : matchSegs (u :: us) (t :: ts) acc =
            matchSegs us ts (mapInsert acc (stripBraces t) u) := by
          simp [matchSegs, hp]
        rw [step, ih ts _ hsize2]
        simp only [List.zip_cons_cons, List.all_cons, hp, Bool.true_or, Bool.true_and]
        simp [placeholderPairs, hp]
      · by_cases he : u = t
        · have step : matchSegs (u :: us) (t :: ts) acc = matchSegs us ts acc := by
            simp [matchSegs, hp, he]
          rw [step, ih ts _ hsize2]
          have hhead : (isParam t || decide (t = u)) = true := by
            simp [he]
          simp only [List.zip_cons_cons, List.all_cons, hhead, Bool.true_and]
          simp [placeholderPairs, hp]
        · have step : matchSegs (u :: us) (t :: ts) acc = none := by
            simp [matchSegs, hp, he]
          rw [step]
          have hne : ¬ (t = u) := fun hh => he hh.symm
          simp [placeholderPairs, hp, hne, List.all_cons]

/-- C1 counterexample: for the template `{a}/{a}` (two placeholder
positions) and the incoming segments `["x", "y"]`, the endpoint matches but
the parameter map holds a single entry `("a", "x")` — not one entry per
placeholder position — because the second `std::map::insert` under the
duplicate name is a no-op. -/
theorem C1_counterexample :
    splitPath "\x7ba\x7d/\x7ba\x7d" = ["\x7ba\x7d", "\x7ba\x7d"] ∧
    isParam "\x7ba\x7d" = true ∧
    matchEndpoint ["\x7ba\x7d", "\x7ba\x7d"] ["x", "y"] = some [("a", "x")] ∧
    [("a", "x")].length = 1 := by
  decide

/-- C1 (amended): for every template with at least one segment and every
incoming post-group segment list, the endpoint pattern-matches exactly when
the incoming count equals the template's (or exceeds it by one with a final
empty segment) and every template position is a placeholder or an exact,
case-sensitive literal match; on a match the parameter map holds exactly one
entry per distinct placeholder name — the braces-stripped name mapped to the
incoming segment at the first position bearing that name. -/
theorem C1_match_extraction (T U : List String) (hT : T.isEmpty = false) :
    matchEndpoint T U =
      (if (U.length = T.length + 1 ∧ U.getLastD "" = "") ∨ U.length = T.length then
        (if (T.zip U).all (fun p => isParam p.1 || p.1 = p.2) then
          some (dedupKeepFirst (placeholderPairs T U))
        else none)
      else none) := by
  unfold matchEndpoint
  rw [if_neg (by simp [hT])]
  by_cases hg : (U.length = T.length + 1 ∧ U.getLastD "" = "") ∨ U.length = T.length
  · rw [if_pos hg, if_pos hg]
    exact matchSegs_spec U T [] hg.symm
  · rw [if_neg hg, if_neg hg]

/-- C1 witness: the amended theorem at the template `{a}/b` against the
segments `x/b/` (trailing slash). -/
theorem C1_match_extraction_witness :
    (["\x7ba\x7d", "b"] : List String).isEmpty = false ∧
    matchEndpoint ["\x7ba\x7d", "b"] ["x", "b", ""] = some [("a", "x")] := by
  refine ⟨rfl, ?_⟩
  have h := C1_match_extraction ["\x7ba\x7d", "b"] ["x", "b", ""] rfl
  rw [h]
  decide

/-- C2: the code's behavior on a group `address` holding only the
empty-template root endpoint.  `/v1/address` produces no pattern match at
all (matching only runs when a post-group segment exists) and the dispatcher
answers 404 "Invalid endpoint"; `/v1/address/` matches with an empty
parameter map, and so does `/v1/address//` — contradicting the root-endpoint
rule the claim (and the code's own comment) states. -/
theorem C2_root_endpoint_behavior :
    (matchSet [addressGroup] "/v1/address").isEmpty = true ∧
    (matchSet [addressGroup] "/v1/address/").map (fun m => (m.1.path, m.2)) = [("", [])] ∧
    (matchSet [addressGroup] "/v1/address//").map (fun m => (m.1.path, m.2)) = [("", [])] ∧
    outcomeResponse (sapi_request_cb ci0 [addressGroup] q0 ⟨none, true, .GET, "/v1/address"⟩).1 =
      some (sapiErrorMsg ci0 404 "Invalid endpoint: /v1/address with method: GET") := by
  decide

/-- C5: the Stop operation on the lifecycle handles.  It is a no-op when
Init never ran, but it is not idempotent: the first call deletes the work
queue without nulling the pointer (unlike the two engine handles), so a
second call operates on the already-released queue. -/
theorem C5_stop_reuses_freed_queue :
    StopSAPIServer initialServerState = .ok initialServerState ∧
    StopSAPIServer afterInitServerState = .ok ⟨some 0, none, none, [1, 2, 0]⟩ ∧
    (match StopSAPIServer afterInitServerState with
     | .ok s1 => StopSAPIServer s1
     | r => r) = .useAfterFree := by
  decide

/-- C6 counterexample: on queue-full rejection the dispatcher answers with a
raw 500 reply whose body is the plain string "Work queue depth exceeded",
with no headers at all — not a structured JSON error with
`Content-Type: application/json` and the default headers. -/
theorem C6_counterexample :
    outcomeResponse (sapi_request_cb ci0 [addrGroup] qFull ⟨none, true, .GET, "/v1/addr/balance/ABC"⟩).1 =
      some { status := 500, headers := [], body := .str "Work queue depth exceeded" } := by
  decide

/-- C10: a template segment is a placeholder only when its first character
is an opening brace and its last a closing brace; the one-character segments
consisting solely of either brace satisfy at most one condition, are not
placeholders, and are matched as literals. -/
theorem C10_one_char_brace_literal :
    isParam "\x7b" = false ∧ isParam "\x7d" = false ∧
    (∀ u : String, matchEndpoint ["\x7b"] [u] = if u = "\x7b" then some [] else none) ∧
    (∀ u : String, matchEndpoint ["\x7d"] [u] = if u = "\x7d" then some [] else none) ∧
    (∀ s : String, isParam s = true → segFront s.data = '\x7b' ∧ segBack s.data = '\x7d') := by
  refine ⟨rfl, rfl, ?_, ?_, ?_⟩
  · intro u
    by_cases h : u = "\x7b" <;>
      simp [matchEndpoint, matchSegs, h, show isParam "\x7b" = false from rfl]
  · intro u
    by_cases h : u = "\x7d" <;>
      simp [matchEndpoint, matchSegs, h, show isParam "\x7d" = false from rfl]
  · intro s hs
    simpa [isParam] using hs

/-- C10 witness: the one-character brace template matches only its literal
self, and a genuine placeholder such as `{a}` does start and end with the
braces. -/
theorem C10_one_char_brace_literal_witness :
    matchEndpoint ["\x7b"] ["\x7b"] = some [] ∧
    matchEndpoint ["\x7b"] ["x"] = none ∧
    (segFront "\x7ba\x7d".data = '\x7b' ∧ segBack "\x7ba\x7d".data = '\x7d') := by
  have h1 := C10_one_char_brace_literal.2.2.1 "\x7b"
  have h2 := C10_one_char_brace_literal.2.2.1 "x"
  have h3 := C10_one_char_brace_literal.2.2.2.2 "\x7ba\x7d" (by decide)
  refine ⟨?_, ?_, h3⟩
  · rw [h1]
    decide
  · rw [h2]
    decide

/-- C3: an OPTIONS request whose URI pattern-matches at least one endpoint
is answered synchronously with a 200 carrying the default headers, an
`Access-Control-Allow-Methods` value enumerating OPTIONS followed by every
matched endpoint's method, `Access-Control-Allow-Headers: Content-Type`, and
an empty body; the work queue is returned untouched (no work item is
enqueued). -/
theorem C3_options_short_circuit (ci : ClientInfo) (groups : List EndpointGroup)
    (q : WorkQueue WorkItem) (req : RequestInput)
    (hw : req.warmup = none) (hp : req.peerValid = true) (hm : req.method = .OPTIONS)
    (hne : (matchSet groups req.uri).isEmpty = false) :
    sapi_request_cb ci groups q req =
      (.respond { status := 200
                  headers := defaultHeaders ci ++
                    [("Access-Control-Allow-Methods", strMethodsOf (matchSet groups req.uri)),
                     ("Access-Control-Allow-Headers", "Content-Type")]
                  body := .str "" }, q) := by
  by_cases h1 : substrTo req.uri versionSubPath.length = versionSubPath
  · by_cases h2 : ((substrFrom req.uri versionSubPath.length).data.isEmpty
        || decide (segFront (substrFrom req.uri versionSubPath.length).data ≠ '/')) = true
    · exfalso
      simp [matchSet, h1] at hne
      simp at h2
      rcases h2 with h2 | h2
      · exact hne.1 h2
      · exact h2 hne.2.1
    · have hms : matchSet groups req.uri =
          collectMatches groups
            ((splitPath (substrFrom (substrFrom req.uri versionSubPath.length) 1)).headD "")
            (splitPath (substrFrom (substrFrom req.uri versionSubPath.length) 1)).tail := by
        simp only [matchSet]
        rw [if_neg (not_not_intro h1), if_neg h2]
      rw [hms] at hne ⊢
      simp only [sapi_request_cb, hw, hp, hm]
      simp at h2
      simp [h1, h2.1, h2.2, hne]
      intro hcon
      simp at hne
      exact absurd hcon hne
  · exfalso
    simp [matchSet, h1] at hne

/-- C8: the admission checks of the dispatcher run in the fixed order
warm-up 503, allow-policy 403, method 405, version-prefix 404,
missing-endpoint 404; each rejection is written before any later check and
before any endpoint matching — the result is the same for every endpoint
registry and work queue, which is returned untouched. -/
theorem C8_admission_order :
    (∀ (ci : ClientInfo) (groups : List EndpointGroup) (q : WorkQueue WorkItem)
       (req : RequestInput) (statusmessage : String), req.warmup = some statusmessage →
       sapi_request_cb ci groups q req =
         (.respond (sapiErrorMsg ci 503 ("Service temporarily unavailable: " ++ statusmessage)), q)) ∧
    (∀ (ci : ClientInfo) (groups : List EndpointGroup) (q : WorkQueue WorkItem)
       (req : RequestInput), req.warmup = none → req.peerValid = false →
       sapi_request_cb ci groups q req = (.respond (sapiErrorMsg ci 403 "Access forbidden"), q)) ∧
    (∀ (ci : ClientInfo) (groups : List EndpointGroup) (q : WorkQueue WorkItem)
       (req : RequestInput), req.warmup = none → req.peerValid = true →
       req.method = .UNKNOWN →
       sapi_request_cb ci groups q req = (.respond (sapiErrorMsg ci 405 "Invalid method"), q)) ∧
    (∀ (ci : ClientInfo) (groups : List EndpointGroup) (q : WorkQueue WorkItem)
       (req : RequestInput), req.warmup = none → req.peerValid = true →
       req.method ≠ .UNKNOWN →
       substrTo req.uri versionSubPath.length ≠ versionSubPath →
       sapi_request_cb ci groups q req =
         (.respond (sapiErrorMsg ci 404 "Invalid api version. Use: <host>/v1/<endpoint>"), q)) ∧
    (∀ (ci : ClientInfo) (groups : List EndpointGroup) (q : WorkQueue WorkItem)
       (req : RequestInput), req.warmup = none → req.peerValid = true →
       req.method ≠ .UNKNOWN →
       substrTo req.uri versionSubPath.length = versionSubPath →
       ((substrFrom req.uri versionSubPath.length).data.isEmpty
         || decide (segFront (substrFrom req.uri versionSubPath.length).data ≠ '/')) = true →
       sapi_request_cb ci groups q req =
         (.respond (sapiErrorMsg ci 404 "Endpoint missing. Use: <host>/v1/<endpoint>"), q)) := by
  refine ⟨?_, ?_, ?_, ?_, ?_⟩
  · intro ci groups q req statusmessage hw
    simp [sapi_request_cb, hw]
  · intro ci groups q req hw hp
    simp [sapi_request_cb, hw, hp]
  · intro ci groups q req hw hp hm
    simp [sapi_request_cb, hw, hp, hm]
  · intro ci groups q req hw hp hm hv
    simp [sapi_request_cb, hw, hp, hm, hv]
  · intro ci groups q req hw hp hm hv he
    simp only [sapi_request_cb, hw, hp, hm, hv]
    simp [he]
    intro ha hb
    exfalso
    simp at he
    rcases he with h | h
    · exact ha h
    · exact h hb

/-- C3 witness: the OPTIONS short-circuit at a concrete registry and
request, with the allow-methods value evaluated. -/
theorem C3_options_short_circuit_witness :
    sapi_request_cb ci0 [addrGroup] q0 ⟨none, true, .OPTIONS, "/v1/addr/balance/ABC"⟩ =
      (.respond { status := 200
                  headers := defaultHeaders ci0 ++
                    [("Access-Control-Allow-Methods", "OPTIONS, GET"),
                     ("Access-Control-Allow-Headers", "Content-Type")]
                  body := .str "" }, q0) := by
  have h := C3_options_short_circuit ci0 [addrGroup] q0
    ⟨none, true, .OPTIONS, "/v1/addr/balance/ABC"⟩ rfl rfl rfl (by decide)
  rw [h]
  rfl

/-- C8 witness: each admission rejection at a concrete input. -/
theorem C8_admission_order_witness :
    sapi_request_cb ci0 [addrGroup] q0 ⟨some "warming", true, .GET, "/v1/addr/balance/ABC"⟩ =
      (.respond (sapiErrorMsg ci0 503 "Service temporarily unavailable: warming"), q0) ∧
    sapi_request_cb ci0 [addrGroup] q0 ⟨none, false, .GET, "/v1/addr/balance/ABC"⟩ =
      (.respond (sapiErrorMsg ci0 403 "Access forbidden"), q0) ∧
    sapi_request_cb ci0 [addrGroup] q0 ⟨none, true, .UNKNOWN, "/v1/addr/balance/ABC"⟩ =
      (.respond (sapiErrorMsg ci0 405 "Invalid method"), q0) ∧
    sapi_request_cb ci0 [addrGroup] q0 ⟨none, true, .GET, "/v2/xyz/balance"⟩ =
      (.respond (sapiErrorMsg ci0 404 "Invalid api version. Use: <host>/v1/<endpoint>"), q0) ∧
    sapi_request_cb ci0 [addrGroup] q0 ⟨none, true, .GET, "/v1"⟩ =
      (.respond (sapiErrorMsg ci0 404 "Endpoint missing. Use: <host>/v1/<endpoint>"), q0) :=
  ⟨C8_admission_order.1 ci0 [addrGroup] q0 _ "warming" rfl,
   C8_admission_order.2.1 ci0 [addrGroup] q0 _ rfl rfl,
   C8_admission_order.2.2.1 ci0 [addrGroup] q0 _ rfl rfl rfl,
   C8_admission_order.2.2.2.1 ci0 [addrGroup] q0 _ rfl rfl (by decide) (by decide),
   C8_admission_order.2.2.2.2 ci0 [addrGroup] q0 _ rfl rfl (by decide) (by decide) (by decide)⟩

/-- Enqueuing a list that fits the remaining capacity of a running queue
succeeds entirely and appends the items in order. -/
theorem enqueueAll_succeeds {α : Type} : ∀ (xs : List α) (q : WorkQueue α),
    q.running = true → q.queue.length + xs.length ≤ q.maxDepth →
    enqueueAll q xs = (true, ⟨true, q.maxDepth, q.queue ++ xs⟩) := by
  intro xs
  induction xs with
  | nil =>
    intro q hr _
    cases q
    simp_all [enqueueAll]
  | cons x xs ih =>
    intro q hr hle
    have hlt : q.queue.length < q.maxDepth := by
      simp only [List.length_cons] at hle
      omega
    have hstep : q.Enqueue x = (true, { q with queue := q.queue ++ [x] }) := by
      unfold WorkQueue.Enqueue
      rw [if_pos ⟨hr, hlt⟩]
    have hrec := ih { q with queue := q.queue ++ [x] } hr
      (by simp only [List.length_append, List.length_singleton]
          simp only [List.length_cons] at hle
          omega)
    simp only [enqueueAll, hstep, hrec, Bool.true_and, List.append_assoc, List.singleton_append]

/-- C4: `Enqueue` succeeds and appends exactly when the queue is running and
strictly below capacity, and otherwise reports failure leaving the queue
unchanged; consequently `maxDepth` enqueues onto an empty running queue all
succeed and the next one fails with all items still queued. -/
theorem C4_enqueue_capacity :
    (∀ (α : Type) (q : WorkQueue α) (item : α),
       ((q.Enqueue item).1 = true ↔ q.running = true ∧ q.queue.length < q.maxDepth) ∧
       ((q.Enqueue item).1 = true →
         (q.Enqueue item).2 = { q with queue := q.queue ++ [item] }) ∧
       ((q.Enqueue item).1 = false → (q.Enqueue item).2 = q)) ∧
    (∀ (α : Type) (d : Nat) (xs : List α) (x : α), xs.length = d →
       enqueueAll ⟨true, d, []⟩ xs = (true, ⟨true, d, xs⟩) ∧
       ((⟨true, d, xs⟩ : WorkQueue α).Enqueue x).1 = false ∧
       ((⟨true, d, xs⟩ : WorkQueue α).Enqueue x).2 = ⟨true, d, xs⟩) := by
  constructor
  · intro α q item
    unfold WorkQueue.Enqueue
    by_cases hc : q.running = true ∧ q.queue.length < q.maxDepth
    · rw [if_pos hc]
      refine ⟨⟨fun _ => hc, fun _ => rfl⟩, fun _ => rfl, fun hfalse => ?_⟩
      simp at hfalse
    · rw [if_neg hc]
      refine ⟨⟨fun hfalse => ?_, fun hcc => absurd hcc hc⟩, fun hfalse => ?_, fun _ => rfl⟩
      · simp at hfalse
      · simp at hfalse
  · intro α d xs x hlen
    have hall := enqueueAll_succeeds xs ⟨true, d, []⟩ rfl (by simp [hlen])
    have hfull : (⟨true, d, xs⟩ : WorkQueue α).Enqueue x = (false, ⟨true, d, xs⟩) := by
      unfold WorkQueue.Enqueue
      rw [if_neg]
      rintro ⟨-, hlt⟩
      simp only [hlen] at hlt
      omega
    refine ⟨?_, ?_, ?_⟩
    · simpa using hall
    · rw [hfull]
    · rw [hfull]

/-- C4 witness: a queue of depth 2 accepts two items and rejects the third,
keeping both queued. -/
theorem C4_enqueue_capacity_witness :
    ((⟨true, 2, [10]⟩ : WorkQueue Nat).Enqueue 20).1 = true ∧
    enqueueAll (⟨true, 2, []⟩ : WorkQueue Nat) [10, 20] = (true, ⟨true, 2, [10, 20]⟩) ∧
    ((⟨true, 2, [10, 20]⟩ : WorkQueue Nat).Enqueue 30).1 = false ∧
    ((⟨true, 2, [10, 20]⟩ : WorkQueue Nat).Enqueue 30).2 = ⟨true, 2, [10, 20]⟩ := by
  have h1 := (C4_enqueue_capacity.1 Nat ⟨true, 2, [10]⟩ 20).1.mpr ⟨rfl, by decide⟩
  have h2 := C4_enqueue_capacity.2 Nat 2 [10, 20] 30 rfl
  exact ⟨h1, h2.1, h2.2.1, h2.2.2⟩

/-- The accumulation loop of `SAPIValidateBody` computes exactly the
spec-side violation list, appended to whatever was accumulated so far. -/
theorem validateParams_eq (body : UniV) : ∀ (ps : List BodyParameter) (acc : List SResult),
    validateParams body ps acc = acc ++ specResults body ps := by
  intro ps
  induction ps with
  | nil =>
    intro acc
    simp [validateParams, specResults]
  | cons param ps ih =>
    intro acc
    by_cases he : uexists body param.key = true
    · by_cases hk : kindOf (uget body param.key) = param.validator.type
      · by_cases hv : (param.validator.validate param.key (uget body param.key)).code = SCode.Valid
        · have hbase : ParameterBaseCheck body param = ⟨SCode.Valid, ""⟩ := by
            unfold ParameterBaseCheck
            rw [if_neg (by simp [he]), if_pos he, if_neg (by simp [hk])]
          simp only [validateParams, hbase, specResults]
          rw [if_neg (by simp), if_pos he, if_neg (by simp [hv])]
          rw [ih]
          rw [if_neg (by simp [he]), if_neg (by simp [hk]), if_neg (by simp [hv])]
          simp
        · have hbase : ParameterBaseCheck body param = ⟨SCode.Valid, ""⟩ := by
            unfold ParameterBaseCheck
            rw [if_neg (by simp [he]), if_pos he, if_neg (by simp [hk])]
          simp only [validateParams, hbase, specResults]
          rw [if_neg (by simp), if_pos he, if_pos (by simp [hv])]
          rw [ih]
          rw [if_neg (by simp [he]), if_neg (by simp [hk]), if_pos ⟨he, hv⟩]
          simp
      · have hbase : ParameterBaseCheck body param =
            ⟨SCode.InvalidType, invalidTypeMessage param.key param.validator.type⟩ := by
          unfold ParameterBaseCheck
          rw [if_neg (by simp [he]), if_pos he, if_pos hk]
        simp only [validateParams, hbase, specResults]
        rw [if_pos (by simp)]
        rw [ih]
        rw [if_neg (by simp [he]), if_pos ⟨he, hk⟩]
        simp
    · by_cases ho : param.optional = true
      · have hbase : ParameterBaseCheck body param = ⟨SCode.Valid, ""⟩ := by
          unfold ParameterBaseCheck
          rw [if_neg (by simp [ho]), if_neg (by simp [he])]
        simp only [validateParams, hbase, specResults]
        rw [if_neg (by simp), if_neg (by simp [he])]
        rw [ih]
        rw [if_neg (by simp [ho]), if_neg (by simp [he]), if_neg (by simp [he])]
        simp
      · have hbase : ParameterBaseCheck body param =
            ⟨SCode.ParameterMissing, "Parameter missing: " ++ param.key⟩ := by
          unfold ParameterBaseCheck
          rw [if_pos ⟨by simp [he], by simp [ho]⟩]
        simp only [validateParams, hbase, specResults]
        rw [if_pos (by simp)]
        rw [ih]
        rw [if_pos ⟨by simp [he], by simp [ho]⟩]
        simp

/-- C7: for an endpoint with a declared object/array body root and a
successfully parsed body of the right root kind, validation accumulates
exactly the spec-side violation list — one `ParameterMissing` per absent
non-optional key, one `InvalidType` (naming the expected kind) per present
key of the wrong kind, and the semantic validator's non-Valid result per
present key of the right kind, in declaration order — and any violation
yields a single 400 response carrying the whole list. -/
theorem C7_accumulated_validation (ci : ClientInfo) (parse : String → ParseResult)
    (e : Endpoint) (bodyStr : String) (v : UniV)
    (hroot : e.bodyRoot = UKind.VOBJ ∨ e.bodyRoot = UKind.VARR)
    (hbody : bodyStr.data.isEmpty = false)
    (hparse : parse bodyStr = .ok v)
    (hkind : kindOf v = e.bodyRoot) :
    SAPIValidateBody ci parse e bodyStr =
      (if (specResults v e.vecBodyParameter).isEmpty then .ok v
       else .error (sapiErrorResults ci 400 (specResults v e.vecBodyParameter))) := by
  have hvp : validateParams v e.vecBodyParameter [] = specResults v e.vecBodyParameter := by
    simpa using validateParams_eq v e.vecBodyParameter []
  unfold SAPIValidateBody
  rw [if_neg (by rcases hroot with h | h <;> simp [h])]
  rw [if_neg (by simp [hbody])]
  simp only [hparse]
  rcases hroot with h | h
  · rw [if_neg (by simp [h, hkind]), if_neg (by simp [h]), hvp]
    by_cases hres : (specResults v e.vecBodyParameter).isEmpty = true
    · rw [if_neg (not_not_intro hres), if_pos hres]
    · rw [if_pos hres, if_neg hres]
  · rw [if_neg (by simp [h]), if_neg (by simp [h, hkind]), hvp]
    by_cases hres : (specResults v e.vecBodyParameter).isEmpty = true
    · rw [if_neg (not_not_intro hres), if_pos hres]
    · rw [if_pos hres, if_neg hres]

/-- C7 witness: a body missing the two required keys `a` and `b` and giving
the number-typed key `c` a string yields exactly the three violations in one
400 response. -/
theorem C7_accumulated_validation_witness :
    SAPIValidateBody ci0 parse0 objEndpoint "b" =
      .error (sapiErrorResults ci0 400
        [⟨SCode.ParameterMissing, "Parameter missing: a"⟩,
         ⟨SCode.ParameterMissing, "Parameter missing: b"⟩,
         ⟨SCode.InvalidType, "Invalid type for key: c -- expected Number"⟩]) ∧
    (specResults body0 objEndpoint.vecBodyParameter).length = 3 := by
  have h := C7_accumulated_validation ci0 parse0 objEndpoint "b" body0
    (Or.inl rfl) rfl rfl rfl
  rw [h]
  exact ⟨rfl, rfl⟩

/-- C9: for an endpoint whose declared body root is neither object nor
array, validation succeeds for every parse function and every body string —
the body is never read and no declared parameter schema is consulted — and
the executor hands the handler the path parameters together with the null
body value. -/
theorem C9_no_body_root (ci : ClientInfo) (parse : String → ParseResult) (e : Endpoint)
    (bodyStr : String) (params : List (String × String))
    (h1 : e.bodyRoot ≠ UKind.VOBJ) (h2 : e.bodyRoot ≠ UKind.VARR) :
    SAPIValidateBody ci parse e bodyStr = .ok .null ∧
    SAPIExecuteEndpoint ci parse e params bodyStr = .ok (params, .null) := by
  have hv : SAPIValidateBody ci parse e bodyStr = .ok .null := by
    unfold SAPIValidateBody
    rw [if_pos ⟨h2, h1⟩]
  refine ⟨hv, ?_⟩
  unfold SAPIExecuteEndpoint
  rw [hv]

/-- C9 witness: the bodyless GET endpoint ignores an arbitrary body string
and its parameter list, and the handler receives the null body. -/
theorem C9_no_body_root_witness :
    SAPIValidateBody ci0 parse0 balanceEndpoint "ignored" = .ok .null ∧
    SAPIExecuteEndpoint ci0 parse0 balanceEndpoint [("address", "ABC")] "ignored" =
      .ok ([("address", "ABC")], .null) :=
  C9_no_body_root ci0 parse0 balanceEndpoint "ignored" [("address", "ABC")]
    (by decide) (by decide)

/-- C6 (amended): every response the dispatcher writes is either a
`SAPI::Error` reply — a structured JSON array of results with the default
headers and `Content-Type: application/json` — or the OPTIONS 200 with an
empty body, or the queue-full rejection, which is a plain 500 reply with the
body "Work queue depth exceeded" and no headers at all; and every failure
response of body validation is such a structured JSON reply. -/
theorem C6_error_bodies :
    (∀ (ci : ClientInfo) (groups : List EndpointGroup) (q : WorkQueue WorkItem)
       (req : RequestInput) (r : Response),
       (sapi_request_cb ci groups q req).1 = .respond r →
       (∃ errs, r.body = RBody.json errs ∧
          r.headers = defaultHeaders ci ++ [("Content-Type", "application/json")]) ∨
       (r.status = 200 ∧ r.body = .str "") ∨
       (r.status = 500 ∧ r.headers = [] ∧ r.body = .str "Work queue depth exceeded")) ∧
    (∀ (ci : ClientInfo) (parse : String → ParseResult) (e : Endpoint) (bodyStr : String)
       (r : Response),
       SAPIValidateBody ci parse e bodyStr = .error r →
       ∃ errs, r.body = RBody.json errs ∧
         r.headers = defaultHeaders ci ++ [("Content-Type", "application/json")]) := by
  constructor
  · intro ci groups q req r h
    unfold sapi_request_cb at h
    all_goals try dsimp only at h
    iterate 9 (all_goals try split at h)
    all_goals simp at h
    all_goals subst h
    all_goals first
      | exact Or.inl ⟨_, rfl, rfl⟩
      | exact Or.inr (Or.inl ⟨rfl, rfl⟩)
      | exact Or.inr (Or.inr ⟨rfl, rfl, rfl⟩)
  · intro ci parse e bodyStr r h
    unfold SAPIValidateBody at h
    all_goals try dsimp only at h
    iterate 9 (all_goals try split at h)
    all_goals simp at h
    all_goals subst h
    all_goals exact ⟨_, rfl, rfl⟩

/-- C6 witness: the warm-up rejection and the empty-body rejection are both
structured JSON replies. -/
theorem C6_error_bodies_witness :
    ((∃ errs, (sapiErrorMsg ci0 503 "Service temporarily unavailable: w").body = RBody.json errs ∧
        (sapiErrorMsg ci0 503 "Service temporarily unavailable: w").headers =
          defaultHeaders ci0 ++ [("Content-Type", "application/json")]) ∨
     ((sapiErrorMsg ci0 503 "Service temporarily unavailable: w").status = 200 ∧
        (sapiErrorMsg ci0 503 "Service temporarily unavailable: w").body = .str "") ∨
     ((sapiErrorMsg ci0 503 "Service temporarily unavailable: w").status = 500 ∧
        (sapiErrorMsg ci0 503 "Service temporarily unavailable: w").headers = [] ∧
        (sapiErrorMsg ci0 503 "Service temporarily unavailable: w").body =
          .str "Work queue depth exceeded")) ∧
    (∃ errs,
      (sapiErrorMsg ci0 400 "No body parameter object defined in the body: \x7b...TBD...\x7d").body =
        RBody.json errs ∧
      (sapiErrorMsg ci0 400 "No body parameter object defined in the body: \x7b...TBD...\x7d").headers =
        defaultHeaders ci0 ++ [("Content-Type", "application/json")]) :=
  ⟨C6_error_bodies.1 ci0 [] q0 ⟨some "w", true, .GET, "/x"⟩
      (sapiErrorMsg ci0 503 "Service temporarily unavailable: w") rfl,
   C6_error_bodies.2 ci0 parse0 objEndpoint ""
      (sapiErrorMsg ci0 400 "No body parameter object defined in the body: \x7b...TBD...\x7d") rfl⟩

end SAPI

